import Mathlib

/-!
Shallow embedding of the rental-backend deposit coordinator
(`src/unnamed/part_001` and `src/server.js`) for checking the
specification's claims about the idempotency store, the signed
request builder, and the deposit workflow handlers.

Times are modelled as `Nat` milliseconds (JS `Date.now()`), with
window arithmetic carried out in `Int` because JS subtraction can
go negative.  Persisted JSON sets are modelled as insertion-ordered
`List String` (mirroring JS `Set` iteration order); the persisted
file always mirrors the in-memory set because every mutation calls
`saveSet` immediately, so the set value stands for both.
-/

namespace RentalBackend

/-! ### JS-style string and number helpers -/

/-- Decimal digit character, as produced by JS template-literal
number formatting (only ever called with `n < 10` here). -/
def digitChar (n : Nat) : Char :=
  match n with
  | 0 => '0' | 1 => '1' | 2 => '2' | 3 => '3' | 4 => '4'
  | 5 => '5' | 6 => '6' | 7 => '7' | 8 => '8' | 9 => '9'
  | _ => '*'

/-- Fuelled decimal rendering of a natural number (most significant
digit first); fuel is consumed on each division by 10. -/
def natDigitsAux : Nat → Nat → List Char
  | 0, _ => []
  | fuel + 1, n =>
    if n < 10 then [digitChar n]
    else natDigitsAux fuel (n / 10) ++ [digitChar (n % 10)]

/-- Decimal rendering of a natural number, as JS `String(n)` /
`${n}` produce for the nonnegative integers used as timestamps. -/
def natDigits (n : Nat) : List Char := natDigitsAux (n + 1) n

/-- Value of a digit string read left to right. -/
def digitsVal (l : List Char) : Nat :=
  l.foldl (fun a c => 10 * a + (c.toNat - 48)) 0

/-- Parse a nonempty all-digit character run; `none` plays NaN. -/
def parseDigits (l : List Char) : Option Nat :=
  if l.isEmpty then none
  else if l.all Char.isDigit then some (digitsVal l) else none

/-- JS `Number(ts)` on the second field of a sent-record entry,
restricted to the fragment on which this model and JS agree:
`Number(undefined)` is NaN (`none`), `Number("")` is `0`, and a
plain decimal digit run — the only shape `markDepositSent` writes
there for a colon-free bookingID — parses to its value.  Other
JS-numeric strings (`"2e12"`, `"1.5"`, `" 123"`, `"0x10"`), which
`Number()` would parse but this function maps to `none`, can reach
the ts field (for instance when a colon-containing bookingID is
marked, its tail lands in the field); they are outside the modelled
fragment, so theorems about the store that depend on a timestamp's
value restrict their hypotheses to entries whose field this function
parses the way JS does. -/
def jsNumTs : Option String → Option Nat
  | none => none
  | some s => if s = "" then some 0 else parseDigits s.data

/-- JS `String.prototype.split(sep)` on a one-character separator,
accumulator-based: `"a:b:c".split(":") = ["a","b","c"]`,
`"".split(":") = [""]`. -/
def jsSplitAux (sep : Char) : List Char → List Char → List String
  | [], cur => [String.mk cur.reverse]
  | c :: rest, cur =>
    if c = sep then String.mk cur.reverse :: jsSplitAux sep rest []
    else jsSplitAux sep rest (c :: cur)

def jsSplit (sep : Char) (s : String) : List String := jsSplitAux sep s.data []

/-- `const [id, ts] = String(entry).split(":")`: the first field and
the (possibly `undefined`) second field of a sent-record entry. -/
def entryParts (e : String) : String × Option String :=
  match jsSplit ':' e with
  | [] => ("", none)
  | [a] => (a, none)
  | a :: b :: _ => (a, some b)

/-! ### Idempotency store (`sentDepositBookings`) -/

def THREE_DAYS_MS : Int := 3 * 24 * 60 * 60 * 1000

/-- JS `Set.add` on an insertion-ordered set modelled as a list. -/
def setAdd (s : List String) (x : String) : List String :=
  if s.contains x then s else s ++ [x]

/-- The entry string `` `${bookingID}:${Date.now()}` ``. -/
def mkSentEntry (bookingID : String) (now : Nat) : String :=
  bookingID ++ ":" ++ String.mk (natDigits now)

/-- `markDepositSent(bookingID)`: add `` `${bookingID}:${Date.now()}` ``
to the set (and persist it). -/
def markDepositSent (now : Nat) (bookingID : String) (s : List String) :
    List String :=
  setAdd s (mkSentEntry bookingID now)

/-- The per-entry recency test shared by the sweep
(`!isNaN(Number(ts)) && Number(ts) > cutoff`) and
`alreadySentRecently` (`Number(ts) > cutoff`, false on NaN),
with `cutoff = Date.now() - THREE_DAYS_MS`. -/
def entryRecent (now : Nat) (e : String) : Bool :=
  match jsNumTs (entryParts e).2 with
  | some t => decide ((t : Int) > (now : Int) - THREE_DAYS_MS)
  | none => false

/-- The nightly cron sweep: keep exactly the entries whose timestamp
field parses and is newer than the cutoff. -/
def sweep (now : Nat) (s : List String) : List String :=
  s.filter (entryRecent now)

/-- `alreadySentRecently(bookingID)`: some entry has first field equal
to the id and a timestamp newer than the cutoff. -/
def alreadySentRecently (now : Nat) (bookingID : String) (s : List String) :
    Bool :=
  s.any (fun e => (entryParts e).1 == bookingID && entryRecent now e)

/-- Folding any number of sweep runs (at the given clock readings)
over a store state. -/
def applySweeps (times : List Nat) (s : List String) : List String :=
  times.foldl (fun acc t => sweep t acc) s

/-! ### Regex-style helpers used by the signed request builder -/

/-- Case-folded character list of a string (the `i` flag; the inputs
matched here are ASCII). -/
def lowerStr (s : String) : List Char := s.data.map Char.toLower

/-- Substring occurrence test on character lists. -/
def containsSubList (pat : List Char) : List Char → Bool
  | [] => pat.isEmpty
  | l@(_ :: rest) => List.isPrefixOf pat l || containsSubList pat rest

/-- `/Invalid timestamp/i.test(s)`. -/
def testInvalidTimestamp (s : String) : Bool :=
  containsSubList "invalid timestamp".data (lowerStr s)

/-- `\s+(\d+)`: at least one whitespace character, then the maximal
nonempty digit run, returned as its value. -/
def parseWsDigits (l : List Char) : Option Nat :=
  if (l.takeWhile Char.isWhitespace).isEmpty then none
  else
    let ds := (l.dropWhile Char.isWhitespace).takeWhile Char.isDigit
    if ds.isEmpty then none else some (digitsVal ds)

/-- Scan for the first position where the pattern is followed by
`\s+(\d+)`, like regex backtracking search. -/
def findCurrentTsAux (pat : List Char) : List Char → Option Nat
  | [] => none
  | l@(_ :: rest) =>
    if List.isPrefixOf pat l then
      match parseWsDigits (l.drop pat.length) with
      | some n => some n
      | none => findCurrentTsAux pat rest
    else findCurrentTsAux pat rest

/-- `s.match(/Current timestamp is\s+(\d+)/i)`, returning the capture
group's value. -/
def matchCurrentTimestamp (s : String) : Option Nat :=
  findCurrentTsAux "current timestamp is".data (lowerStr s)

/-- JS `a || b` where `a` is a possibly-absent string (absent and
`""` are falsy). -/
def jsOrStr : Option String → String → String
  | none, b => b
  | some a, b => if a = "" then b else a

/-! ### Signed request builder (`planyoCall`), part_001 revision -/

/-- The JSON body of a Planyo response, restricted to the fields the
builder inspects. -/
structure PJson where
  response_code : Int
  response_message : Option String
deriving DecidableEq, Repr

/-- One fetch outcome: the raw text and its JSON parse
(`JSON.parse` failure gives `none`). -/
structure PResp where
  json : Option PJson
  text : String
deriving DecidableEq, Repr

/-- Result of `planyoCall` as its callers see it, plus the trace of
`hash_timestamp` values actually fetched (in order). -/
structure PlanyoCallResult where
  ok : Bool
  final : PResp
  timestamps : List Nat
deriving DecidableEq, Repr

/-- `planyoCall` of `src/unnamed/part_001`: fetch once at the current
unix time; if the response is a `response_code === 1` error whose
message (or raw text) matches `/Invalid timestamp/i`, parse
`/Current timestamp is\s+(\d+)/i` out of `response_message` and, when
it captures, fetch exactly once more at that timestamp.  The final
response is classified: unparsable body or nonzero `response_code`
give `ok := false`.  The remote service is the oracle from sent
`hash_timestamp` to response. -/
def planyoCall (oracle : Nat → PResp) (now : Nat) : PlanyoCallResult :=
  let r1 := oracle now
  let step : PResp × List Nat :=
    match r1.json with
    | some j =>
      if j.response_code == 1 &&
          testInvalidTimestamp (jsOrStr j.response_message r1.text) then
        match matchCurrentTimestamp (jsOrStr j.response_message "") with
        | some t => (oracle t, [now, t])
        | none => (r1, [now])
      else (r1, [now])
    | none => (r1, [now])
  let okFlag :=
    match step.1.json with
    | none => false
    | some j => j.response_code == 0
  { ok := okFlag, final := step.1, timestamps := step.2 }

/-! ### Signed request builder, server.js revision -/

/-- `planyoCall` of `src/server.js`: `doFetch` regenerates
`Math.floor(Date.now() / 1000)` on each attempt (`now1`, then `now2`
for the retry); on a `response_code === 1` response whose
`response_message` matches `/Invalid timestamp/i` it retries exactly
once with the fresh timestamp — the embedded remote timestamp is
never parsed out.  Returns the final JSON and the trace of fetched
timestamps.  (`resp.json()` is modelled as succeeding; a non-JSON
body would throw out of this function uncaught.) -/
def srvPlanyoCall (oracle : Nat → PJson) (now1 now2 : Nat) :
    PJson × List Nat :=
  let j1 := oracle now1
  if j1.response_code == 1 &&
      testInvalidTimestamp (jsOrStr j1.response_message "") then
    (oracle now2, [now1, now2])
  else (j1, [now1])

/-! ### Booking lookup result -/

/-- Shape returned by `fetchPlanyoBooking` (which never throws): real
fields on success, sentinels (`"N/A"`, `""`, `null` email) on any
failure.  `startStr`/`endStr` stand for the `start`/`end` fields. -/
structure Booking where
  resource : String
  startStr : String
  endStr : String
  firstName : String
  lastName : String
  email : Option String
deriving DecidableEq, Repr

/-- JS falsiness of a possibly-absent string: absent/`null` and `""`
are falsy. -/
def optStrFalsy : Option String → Bool
  | none => true
  | some s => s == ""

/-! ### `/deposit/send-link` handler, part_001 (V2) revision -/

/-- A JSON request-body value as relevant to the `force` flag. -/
inductive JsonVal where
  | jbool : Bool → JsonVal
  | jstr : String → JsonVal
  | jnum : Int → JsonVal
  | jnull
  | jmissing
deriving DecidableEq, Repr

/-- `force === true || force === "true" || force === 1 || force === "1"`. -/
def isForcedOf : JsonVal → Bool
  | .jbool b => b
  | .jstr s => s == "true" || s == "1"
  | .jnum n => n == 1
  | _ => false

/-- Observable outcome of one `/deposit/send-link` (V2) request:
HTTP status, the JSON body's `success`/`alreadySent`/`error` fields,
the number of `sendgrid.send` invocations, whether
`fetchPlanyoBooking` was called, and the resulting sent-deposit set
(the persisted file mirrors it). -/
structure SendLinkResult where
  status : Nat
  success : Bool
  alreadySent : Bool
  errorMsg : Option String
  sendgridCalls : Nat
  lookedUp : Bool
  postSent : List String
deriving DecidableEq, Repr

/-- The `/deposit/send-link` handler of `src/unnamed/part_001`:
unless forced, a recent sent-record short-circuits to success with
`alreadySent: true`; a falsy customer email answers
`{ success: false, error: "No customer email" }` (via `res.json`,
HTTP 200); otherwise both customer and admin emails are dispatched
(`Promise.all`, 2 `sendgrid.send` calls), a rejection being caught by
the handler's `catch` which answers `res.json({ success: false,
error: err.message })` — again HTTP 200; on success the booking is
marked sent only when not forced.  `emailOutcome` is the
`Promise.all` result. -/
def sendLinkV2 (bookingID : String) (force : JsonVal) (now : Nat)
    (sent : List String) (bk : Booking)
    (emailOutcome : Except String Unit) : SendLinkResult :=
  let isForced := isForcedOf force
  if !isForced && alreadySentRecently now bookingID sent then
    { status := 200, success := true, alreadySent := true,
      errorMsg := none, sendgridCalls := 0, lookedUp := false,
      postSent := sent }
  else if optStrFalsy bk.email then
    { status := 200, success := false, alreadySent := false,
      errorMsg := some "No customer email", sendgridCalls := 0,
      lookedUp := true, postSent := sent }
  else
    match emailOutcome with
    | .error e =>
      { status := 200, success := false, alreadySent := false,
        errorMsg := some e, sendgridCalls := 2, lookedUp := true,
        postSent := sent }
    | .ok _ =>
      { status := 200, success := true, alreadySent := false,
        errorMsg := none, sendgridCalls := 2, lookedUp := true,
        postSent := if !isForced then markDepositSent now bookingID sent
                    else sent }

/-! ### `/deposit/send-link` handler, server.js revision -/

/-- Observable outcome of the server.js `/deposit/send-link` request
(that revision has no idempotency store and no `force` flag). -/
structure SrvSendLinkResult where
  status : Nat
  success : Bool
  errorMsg : Option String
  sendgridCalls : Nat
deriving DecidableEq, Repr

/-- The `/deposit/send-link` handler of `src/server.js`: a falsy
customer email is answered `res.status(400).json({ error: "No
customer email found" })`; the customer and admin emails are sent
sequentially (`await` each), so a rejection of the first means the
second is never attempted; any exception is caught and answered
`res.status(500).json({ error: err.message })`. -/
def srvSendLink (bk : Booking)
    (send1 send2 : Except String Unit) : SrvSendLinkResult :=
  if optStrFalsy bk.email then
    { status := 400, success := false,
      errorMsg := some "No customer email found", sendgridCalls := 0 }
  else
    match send1 with
    | .error e =>
      { status := 500, success := false, errorMsg := some e,
        sendgridCalls := 1 }
    | .ok _ =>
      match send2 with
      | .error e =>
        { status := 500, success := false, errorMsg := some e,
          sendgridCalls := 2 }
      | .ok _ =>
        { status := 200, success := true, errorMsg := none,
          sendgridCalls := 2 }

/-! ### `/terminal/cancel` handler, part_001 revision -/

/-- The canceled PaymentIntent as returned by the payment service. -/
structure CancelObj where
  id : String
  status : String
  metaBookingID : Option String
deriving DecidableEq, Repr

structure CancelResult where
  status : Nat
  errorMsg : Option String
  sendgridCalls : Nat
deriving DecidableEq, Repr

/-- The `/terminal/cancel` handler of `src/unnamed/part_001`: the
payment-service cancel call may throw (e.g. on an already-canceled
hold) — caught and answered `res.status(500).json({ error:
err.message })`; on success, if the intent carries a truthy
`metadata.bookingID` and the booking has a truthy email, the
cancellation notices (customer + admin, `Promise.all`) are sent
unconditionally, a rejection again being caught as a 500 with the
message. -/
def cancelHandler (cancelOutcome : Except String CancelObj)
    (bk : Booking) (emailOutcome : Except String Unit) : CancelResult :=
  match cancelOutcome with
  | .error e => { status := 500, errorMsg := some e, sendgridCalls := 0 }
  | .ok c =>
    if optStrFalsy c.metaBookingID then
      { status := 200, errorMsg := none, sendgridCalls := 0 }
    else if optStrFalsy bk.email then
      { status := 200, errorMsg := none, sendgridCalls := 0 }
    else
      match emailOutcome with
      | .error e =>
        { status := 500, errorMsg := some e, sendgridCalls := 2 }
      | .ok _ =>
        { status := 200, errorMsg := none, sendgridCalls := 2 }

/-! ### `/deposit/status/:bookingID` handler, part_001 revision -/

/-- A Hold (PaymentIntent) as listed from the payment service, with
the fields the status query touches; `metaBookingID` is
`pi.metadata.bookingID` when metadata is present and tagged. -/
structure PaymentIntent where
  id : String
  amount : Int
  status : String
  created : Int
  metaBookingID : Option String
deriving DecidableEq, Repr

structure DepositStatusResp where
  success : Bool
  amountMinor : Option Int
  statusStr : Option String
  created : Option Int
deriving DecidableEq, Repr

/-- The `/deposit/status/:bookingID` handler of
`src/unnamed/part_001`: over the listed page of PaymentIntents
(`limit: 100` — `intents` is that bounded page), filter to those
whose `metadata.bookingID` equals the requested id, then report the
first whose status is `"succeeded"` or `"requires_capture"`
(amount, status, created); otherwise `{ success: false }`.  The
response renders `amount / 100` with two decimals; the reported
amount is modelled by the raw minor-unit value. -/
def depositStatus (bookingID : String) (intents : List PaymentIntent) :
    DepositStatusResp :=
  let matching := intents.filter (fun pi =>
    match pi.metaBookingID with
    | some b => b == bookingID
    | none => false)
  match matching.find? (fun pi =>
      pi.status == "succeeded" || pi.status == "requires_capture") with
  | some pi =>
    { success := true, amountMinor := some pi.amount,
      statusStr := some pi.status, created := some pi.created }
  | none =>
    { success := false, amountMinor := none, statusStr := none,
      created := none }

/-- Modelled from the spec's words, for comparison with the code: a
Hold status that is terminal (captured = `"succeeded"`, or
`"canceled"`; §3 lists terminal states as captured/canceled/refunded)
or hold-active (`"requires_capture"`). -/
def specTerminalOrHoldActive (s : String) : Bool :=
  s == "succeeded" || s == "canceled" || s == "requires_capture"

/-- Single-pass reference scan: the first listed Hold tagged with the
requested id whose status the code reports. -/
def firstReportable (bookingID : String) :
    List PaymentIntent → Option PaymentIntent
  | [] => none
  | pi :: rest =>
    if (match pi.metaBookingID with
        | some b => b == bookingID
        | none => false) &&
       (pi.status == "succeeded" || pi.status == "requires_capture") then
      some pi
    else firstReportable bookingID rest

/-! ### `/planyo/callback` handler, part_001 revision -/

/-- Per-booking questionnaire/licence record. -/
structure FormRec where
  requiredForm : String
  shortDone : Bool
  longDone : Bool
deriving DecidableEq, Repr

/-- The `formStatus` flat JSON object, as an association list keyed
by bookingID. -/
abbrev FormStatusMap := List (String × FormRec)

/-- `if (!formStatus[bookingID]) formStatus[bookingID] = { requiredForm:
formType, shortDone: false, longDone: false }; else
formStatus[bookingID].requiredForm = formType`. -/
def setFormType (fs : FormStatusMap) (bookingID formType : String) :
    FormStatusMap :=
  match List.lookup bookingID fs with
  | none => fs ++ [(bookingID, ⟨formType, false, false⟩)]
  | some _ =>
    fs.map (fun p =>
      if p.1 == bookingID then (p.1, { p.2 with requiredForm := formType })
      else p)

/-- The mutable persisted state the webhook can touch: the
processed-callbacks set, the form-status map, and (only ever through
the HTTP call to `/deposit/send-link`) the sent-deposit set. -/
structure CbState where
  processed : List String
  formStatus : FormStatusMap
  sentDeposits : List String
deriving DecidableEq

/-- The webhook payload fields the handler reads.  `fromField` stands
for `data.from`. -/
structure CallbackData where
  notification_type : String
  reservation : String
  email : Option String
  user_email : Option String
  start_time : Option String
  fromField : Option String
deriving DecidableEq, Repr

/-- Observable outcome of one `/planyo/callback` request:
HTTP status and body, the resulting state, the number of
`sendQuestionnaireEmail` invocations, and the number of internal
`POST /deposit/send-link` calls issued. -/
structure CbResult where
  status : Nat
  body : String
  state : CbState
  questionnaireCalls : Nat
  sendLinkCalls : Nat
deriving DecidableEq

/-- JS `a || b` on possibly-absent strings, keeping absence. -/
def jsOrOpt (a b : Option String) : Option String :=
  if optStrFalsy a then b else a

/-- The `/planyo/callback` handler of `src/unnamed/part_001`.  Only
`reservation_confirmed` notifications do anything.  A bookingID
already in the processed set short-circuits to HTTP 200
"Already processed" before any lookup, email, or state change.
Otherwise: the booking is fetched; when a truthy customer email and
start string exist, the LONG/SHORT decision plus questionnaire send
run under an inner `catch` that swallows their failure
(`formTypeOutcome` is the decision's result; a questionnaire-send
failure after a successful decision is likewise swallowed and does
not undo the form-status update, so it is not distinguished here);
then the internal `/deposit/send-link` call is awaited
(`sendLinkOutcome`), whose rejection reaches the outer catch
(HTTP 500 "Error") with the bookingID *not* yet added; on success
the bookingID is added to the processed set and HTTP 200 "OK"
returned.  The handler never touches the sent-deposit set directly. -/
def planyoCallback (data : CallbackData) (st : CbState) (bk : Booking)
    (formTypeOutcome : Except String String)
    (sendLinkOutcome : Except String Unit) : CbResult :=
  if data.notification_type == "reservation_confirmed" then
    let bookingID := data.reservation
    if st.processed.contains bookingID then
      { status := 200, body := "Already processed", state := st,
        questionnaireCalls := 0, sendLinkCalls := 0 }
    else
      let customerEmail :=
        jsOrOpt bk.email (jsOrOpt data.email data.user_email)
      let currentStartStr :=
        jsOrOpt (some bk.startStr)
          (jsOrOpt data.start_time data.fromField)
      let afterForm : FormStatusMap × Nat :=
        if !optStrFalsy customerEmail && !optStrFalsy currentStartStr then
          match formTypeOutcome with
          | .ok ft => (setFormType st.formStatus bookingID ft, 1)
          | .error _ => (st.formStatus, 0)
        else (st.formStatus, 0)
      match sendLinkOutcome with
      | .error _ =>
        { status := 500, body := "Error",
          state := { st with formStatus := afterForm.1 },
          questionnaireCalls := afterForm.2, sendLinkCalls := 1 }
      | .ok _ =>
        let st2 : CbState :=
          { processed := setAdd st.processed bookingID,
            formStatus := afterForm.1,
            sentDeposits := st.sentDeposits }
        { status := 200, body := "OK", state := st2,
          questionnaireCalls := afterForm.2, sendLinkCalls := 1 }
  else
    { status := 200, body := "OK", state := st,
      questionnaireCalls := 0, sendLinkCalls := 0 }

/-- Replaying the same callback payload any number of times, with
arbitrary oracle outcomes each time, threading the state. -/
def replayAll (data : CallbackData)
    (oracles : List (Booking × Except String String × Except String Unit))
    (st : CbState) : CbState :=
  oracles.foldl
    (fun s o => (planyoCallback data s o.1 o.2.1 o.2.2).state) st

/-! ### Concrete instances used to exercise the definitions -/

/-- A booking-lookup failure/sentinel result (`email: null`). -/
def noEmailBooking : Booking :=
  { resource := "N/A", startStr := "N/A", endStr := "N/A",
    firstName := "", lastName := "", email := none }

/-- A successful booking-lookup result with an email on file. -/
def emailBooking : Booking :=
  { resource := "Lorry A", startStr := "2025-06-01 09:00",
    endStr := "2025-06-02 17:00", firstName := "Jo",
    lastName := "Smith", email := some "jo@example.com" }

/-- A Planyo clock-drift error message embedding the remote clock. -/
def driftMessage : String :=
  "Invalid timestamp. Current timestamp is 1700000123"

/-- Remote-service behavior that answers the drift error to a fetch
at timestamp 100 and success to any other timestamp (server.js
`resp.json()` view). -/
def driftOracle : Nat → PJson := fun ts =>
  if ts == 100 then
    { response_code := 1, response_message := some driftMessage }
  else { response_code := 0, response_message := none }

/-- The same remote behavior in the part_001 `fetchOnce` view (raw
text plus JSON parse). -/
def driftRespOracle : Nat → PResp := fun ts =>
  { json := some (driftOracle ts), text := "" }

/-- A canceled Hold tagged with booking `"123"`. -/
def canceledHold : PaymentIntent :=
  { id := "pi_1", amount := 20000, status := "canceled",
    created := 1700000000, metaBookingID := some "123" }

/-- A `reservation_confirmed` webhook payload for booking `"42"`. -/
def confirmedData42 : CallbackData :=
  { notification_type := "reservation_confirmed", reservation := "42",
    email := some "jo@example.com", user_email := none,
    start_time := some "2025-06-01 09:00", fromField := none }

/-- A state in which booking `"42"` is already processed. -/
def processedState42 : CbState :=
  { processed := ["42"], formStatus := [], sentDeposits := ["42:100"] }

/-! ### Lemmas: decimal rendering and parsing -/

theorem digitChar_isDigit (n : Nat) (h : n < 10) :
    (digitChar n).isDigit = true := by
  interval_cases n <;> decide

theorem digitChar_val (n : Nat) (h : n < 10) :
    (digitChar n).toNat - 48 = n := by
  interval_cases n <;> decide

theorem digitsVal_append (l : List Char) (c : Char) :
    digitsVal (l ++ [c]) = 10 * digitsVal l + (c.toNat - 48) := by
  simp [digitsVal, List.foldl_append]

theorem natDigitsAux_isDigit (fuel : Nat) :
    ∀ n, n < fuel → ∀ c ∈ natDigitsAux fuel n, c.isDigit = true := by
  induction fuel with
  | zero => intro n h; omega
  | succ fuel ih =>
    intro n _ c hc
    rw [natDigitsAux] at hc
    by_cases h10 : n < 10
    · simp [h10] at hc
      subst hc; exact digitChar_isDigit n h10
    · simp [h10] at hc
      rcases hc with hc | hc
      · exact ih (n / 10) (by omega) c hc
      · subst hc; exact digitChar_isDigit (n % 10) (by omega)

theorem natDigitsAux_ne_nil (fuel n : Nat) (h : n < fuel) :
    natDigitsAux fuel n ≠ [] := by
  cases fuel with
  | zero => omega
  | succ fuel =>
    rw [natDigitsAux]
    by_cases h10 : n < 10 <;> simp [h10]

theorem natDigitsAux_val (fuel : Nat) :
    ∀ n, n < fuel → digitsVal (natDigitsAux fuel n) = n := by
  induction fuel with
  | zero => intro n h; omega
  | succ fuel ih =>
    intro n hn
    rw [natDigitsAux]
    by_cases h10 : n < 10
    · simpa [digitsVal, h10] using digitChar_val n h10
    · have hdiv : n / 10 < fuel := by
        have hlt : n / 10 < n := Nat.div_lt_self (by omega) (by omega)
        omega
      simp only [h10, if_false, digitsVal_append, ih (n / 10) hdiv,
        digitChar_val (n % 10) (by omega)]
      omega

theorem natDigits_isDigit (n : Nat) :
    ∀ c ∈ natDigits n, c.isDigit = true :=
  natDigitsAux_isDigit (n + 1) n (Nat.lt_succ_self n)

theorem natDigits_ne_nil (n : Nat) : natDigits n ≠ [] :=
  natDigitsAux_ne_nil (n + 1) n (Nat.lt_succ_self n)

theorem digitsVal_natDigits (n : Nat) : digitsVal (natDigits n) = n :=
  natDigitsAux_val (n + 1) n (Nat.lt_succ_self n)

theorem parseDigits_natDigits (n : Nat) :
    parseDigits (natDigits n) = some n := by
  have hne := natDigits_ne_nil n
  have hall : (natDigits n).all Char.isDigit = true :=
    List.all_eq_true.mpr (natDigits_isDigit n)
  simp [parseDigits, List.isEmpty_iff, hne, hall, digitsVal_natDigits]

theorem natDigits_no_colon (n : Nat) : ':' ∉ natDigits n := by
  intro hmem
  have := natDigits_isDigit n ':' hmem
  simp [Char.isDigit] at this

/-! ### Lemmas: JS split -/

theorem jsSplitAux_no_sep (sep : Char) :
    ∀ (l acc : List Char), sep ∉ l →
      jsSplitAux sep l acc = [String.mk (acc.reverse ++ l)] := by
  intro l
  induction l with
  | nil => intro acc _; simp [jsSplitAux]
  | cons c rest ih =>
    intro acc hsep
    have hc : ¬c = sep := fun h => hsep (h ▸ List.mem_cons_self c rest)
    have hrest : sep ∉ rest := fun h => hsep (List.mem_cons_of_mem c h)
    simp [jsSplitAux, hc, ih (c :: acc) hrest]

theorem jsSplitAux_break (sep : Char) :
    ∀ (l1 l2 acc : List Char), sep ∉ l1 →
      jsSplitAux sep (l1 ++ sep :: l2) acc =
        String.mk (acc.reverse ++ l1) :: jsSplitAux sep l2 [] := by
  intro l1
  induction l1 with
  | nil => intro l2 acc _; simp [jsSplitAux]
  | cons c rest ih =>
    intro l2 acc hsep
    have hc : ¬c = sep := fun h => hsep (h ▸ List.mem_cons_self c rest)
    have hrest : sep ∉ rest := fun h => hsep (List.mem_cons_of_mem c h)
    simp [jsSplitAux, hc, ih l2 (c :: acc) hrest]

theorem data_mkSentEntry (bookingID : String) (now : Nat) :
    (mkSentEntry bookingID now).data =
      bookingID.data ++ ':' :: natDigits now := by
  simp [mkSentEntry, String.data_append]

theorem entryParts_mkSentEntry (bookingID : String) (now : Nat)
    (h : ':' ∉ bookingID.data) :
    entryParts (mkSentEntry bookingID now) =
      (bookingID, some (String.mk (natDigits now))) := by
  have hsplit : jsSplit ':' (mkSentEntry bookingID now) =
      [bookingID, String.mk (natDigits now)] := by
    unfold jsSplit
    rw [data_mkSentEntry, jsSplitAux_break ':' bookingID.data _ [] h,
      jsSplitAux_no_sep ':' (natDigits now) [] (natDigits_no_colon now)]
    cases bookingID with
    | mk l => simp
  simp [entryParts, hsplit]

theorem jsNumTs_natDigits (now : Nat) :
    jsNumTs (some (String.mk (natDigits now))) = some now := by
  have hne : ¬String.mk (natDigits now) = "" := by
    intro h
    exact natDigits_ne_nil now (by
      have := congrArg String.data h
      simpa using this)
  simp [jsNumTs, hne, parseDigits_natDigits]

theorem entryRecent_mkSentEntry (bookingID : String) (t now : Nat)
    (h : ':' ∉ bookingID.data) :
    entryRecent now (mkSentEntry bookingID t) =
      decide ((t : Int) > (now : Int) - THREE_DAYS_MS) := by
  simp [entryRecent, entryParts_mkSentEntry bookingID t h,
    jsNumTs_natDigits]

/-! ### Lemmas: store membership -/

theorem mem_setAdd (s : List String) (x e : String) :
    e ∈ setAdd s x ↔ e ∈ s ∨ e = x := by
  unfold setAdd
  by_cases hx : x ∈ s
  · have hc : s.contains x = true := by
      simpa [List.contains] using List.elem_iff.mpr hx
    rw [if_pos hc]
    exact ⟨Or.inl, fun h => h.elim id (fun he => he ▸ hx)⟩
  · have hc : ¬s.contains x = true := by
      simpa [List.contains] using fun h => hx (List.elem_iff.mp h)
    rw [if_neg hc]
    simp [List.mem_append]

theorem mem_sweep (now : Nat) (s : List String) (e : String) :
    e ∈ sweep now s ↔ e ∈ s ∧ entryRecent now e = true := by
  simp [sweep, List.mem_filter]

theorem mem_applySweeps (times : List Nat) :
    ∀ (s : List String) (e : String),
      e ∈ applySweeps times s ↔
        e ∈ s ∧ ∀ u ∈ times, entryRecent u e = true := by
  induction times with
  | nil => intro s e; simp [applySweeps]
  | cons t rest ih =>
    intro s e
    show e ∈ applySweeps rest (sweep t s) ↔ _
    rw [ih (sweep t s) e, mem_sweep]
    constructor
    · rintro ⟨⟨hs, ht⟩, hrest⟩
      exact ⟨hs, by simpa [ht] using hrest⟩
    · rintro ⟨hs, hall⟩
      exact ⟨⟨hs, hall t (List.mem_cons_self t rest)⟩,
        fun u hu => hall u (List.mem_cons_of_mem t hu)⟩

theorem alreadySentRecently_iff (now : Nat) (bookingID : String)
    (s : List String) :
    alreadySentRecently now bookingID s = true ↔
      ∃ e ∈ s, (entryParts e).1 = bookingID ∧ entryRecent now e = true := by
  simp [alreadySentRecently, List.any_eq_true]

/-! ### Claim C3: the sweep keeps exactly the entries inside the
retention window -/

/-- C3: running the sweep removes exactly the entries whose recorded
timestamp (the entry's parsed timestamp field) is older than the
3-day retention window: the sweep adds nothing, every entry younger
than the window (`now - ts < THREE_DAYS_MS`) is still present
afterwards, and every entry at least as old as the window is absent
afterwards. -/
theorem sweep_retention_window (now : Nat) (s : List String) :
    (∀ e ∈ sweep now s, e ∈ s) ∧
    (∀ e ∈ s, ∀ ts, jsNumTs (entryParts e).2 = some ts →
      (e ∈ sweep now s ↔ (now : Int) - ts < THREE_DAYS_MS)) := by
  constructor
  · intro e he
    exact ((mem_sweep now s e).mp he).1
  · intro e he ts hts
    rw [mem_sweep]
    simp only [entryRecent, hts, he, true_and, decide_eq_true_eq]
    omega

/-- Witness for C3 at a concrete store: with the clock at
300000000 ms, the entry aged 50000000 ms survives the sweep. -/
theorem sweep_retention_window_witness :
    "8:250000000" ∈ sweep 300000000 ["7:100", "8:250000000"] := by
  have h := (sweep_retention_window 300000000 ["7:100", "8:250000000"]).2
    "8:250000000" (by decide) 250000000 (by decide)
  exact h.mpr (by decide)

/-! ### Claim C10: mark-then-query window equivalence -/

/-- C10 counterexample: the claim fails for a bookingID containing a
colon.  Marking booking `":x"` at time 0 and querying at time 0
(difference 0, well inside the window, no sweep in between) already
answers `false`, because the entry `":x:0"` splits as id `""` with
timestamp field `"x"`. -/
theorem markSent_window_colon_cex :
    alreadySentRecently 0 ":x"
        (applySweeps [] (markDepositSent 0 ":x" [])) = false ∧
      (0 : Int) - 0 < THREE_DAYS_MS := by decide

/-- C10 (amended): for every bookingID not containing a colon and all
times `t ≤ t'`, if `markDepositSent` runs at `t` on a store whose
every entry for that bookingID carries a timestamp field in the
modelled digit-string fragment (the shape `markDepositSent` itself
writes, on which `jsNumTs` and JS `Number()` agree) with value at
most `t` — the runtime situation, entries recording their mark
time — then `alreadySentRecently` at `t'` returns true exactly when
`t' - t` is below `THREE_DAYS_MS`, even across any number of sweep
runs at times between `t` and `t'`. -/
theorem markSent_alreadySent_window (s : List String)
    (bookingID : String) (t t' : Nat) (times : List Nat)
    (hid : ':' ∉ bookingID.data)
    (hprior : ∀ e ∈ s, (entryParts e).1 = bookingID →
      ∃ ts, jsNumTs (entryParts e).2 = some ts ∧ ts ≤ t)
    (htt : t ≤ t')
    (htimes : ∀ u ∈ times, t ≤ u ∧ u ≤ t') :
    (alreadySentRecently t' bookingID
        (applySweeps times (markDepositSent t bookingID s)) = true) ↔
      (t' : Int) - t < THREE_DAYS_MS := by
  constructor
  · intro h
    obtain ⟨e, he, hfst, hrec⟩ := (alreadySentRecently_iff t' bookingID _).mp h
    obtain ⟨hmem, -⟩ := (mem_applySweeps times _ e).mp he
    rcases (mem_setAdd s (mkSentEntry bookingID t) e).mp hmem with hs | heq
    · obtain ⟨ts, hts, hle⟩ := hprior e hs hfst
      simp only [entryRecent, hts, decide_eq_true_eq] at hrec
      omega
    · subst heq
      rw [entryRecent_mkSentEntry bookingID t t' hid] at hrec
      simp only [decide_eq_true_eq] at hrec
      omega
  · intro h
    rw [alreadySentRecently_iff]
    refine ⟨mkSentEntry bookingID t, ?_, ?_, ?_⟩
    · rw [mem_applySweeps]
      refine ⟨(mem_setAdd s _ _).mpr (Or.inr rfl), ?_⟩
      intro u hu
      have hub := htimes u hu
      rw [entryRecent_mkSentEntry bookingID t u hid]
      simp only [decide_eq_true_eq]
      omega
    · rw [entryParts_mkSentEntry bookingID t hid]
    · rw [entryRecent_mkSentEntry bookingID t t' hid]
      simp only [decide_eq_true_eq]
      omega

/-- Witness for C10 at a concrete run: booking `"7"` marked at time
0, a sweep at time 100, queried 1 ms inside the window. -/
theorem markSent_alreadySent_window_witness :
    alreadySentRecently 259199999 "7"
      (applySweeps [100] (markDepositSent 0 "7" [])) = true := by
  have h := markSent_alreadySent_window [] "7" 0 259199999 [100]
    (by decide) (by simp) (by omega)
    (by intro u hu; simp at hu; omega)
  exact h.mpr (by decide)

/-! ### Claim C2: recent send suppresses a non-forced send-link -/

/-- C2: a `/deposit/send-link` request whose bookingID has a
non-expired sent-record and whose `force` flag is not set answers
success (`alreadySent: true`) without any `sendgrid.send` call,
without a booking lookup, and without touching the store. -/
theorem sendLink_recent_skip (bookingID : String) (now : Nat)
    (sent : List String) (bk : Booking) (mail : Except String Unit)
    (hrecent : alreadySentRecently now bookingID sent = true) :
    sendLinkV2 bookingID .jmissing now sent bk mail =
      { status := 200, success := true, alreadySent := true,
        errorMsg := none, sendgridCalls := 0, lookedUp := false,
        postSent := sent } := by
  simp [sendLinkV2, isForcedOf, hrecent]

/-- Witness for C2: booking `"5"` marked 100 ms ago. -/
theorem sendLink_recent_skip_witness :
    sendLinkV2 "5" .jmissing 200 ["5:100"] noEmailBooking (.ok ()) =
      { status := 200, success := true, alreadySent := true,
        errorMsg := none, sendgridCalls := 0, lookedUp := false,
        postSent := ["5:100"] } :=
  sendLink_recent_skip "5" 200 ["5:100"] noEmailBooking (.ok ())
    (by decide)

/-! ### Claim C6: a forced send-link always notifies -/

/-- C6: a `/deposit/send-link` request with the `force` flag set and
a customer email on file performs the booking lookup and invokes
`sendgrid.send` for both the customer and the admin email, whatever
the recent-send state of the store. -/
theorem sendLink_force_sends (bookingID : String) (force : JsonVal)
    (now : Nat) (sent : List String) (bk : Booking)
    (mail : Except String Unit)
    (hforce : isForcedOf force = true)
    (hemail : optStrFalsy bk.email = false) :
    (sendLinkV2 bookingID force now sent bk mail).sendgridCalls = 2 ∧
      (sendLinkV2 bookingID force now sent bk mail).lookedUp = true := by
  cases mail <;> simp [sendLinkV2, hforce, hemail]

/-- Witness for C6: forced resend of booking `"5"` with a fresh
sent-record present. -/
theorem sendLink_force_sends_witness :
    (sendLinkV2 "5" (.jbool true) 200 ["5:100"] emailBooking
        (.ok ())).sendgridCalls = 2 ∧
      (sendLinkV2 "5" (.jbool true) 200 ["5:100"] emailBooking
        (.ok ())).lookedUp = true :=
  sendLink_force_sends "5" (.jbool true) 200 ["5:100"] emailBooking
    (.ok ()) (by decide) (by decide)

/-! ### Claim C7: a forced send-link leaves the store untouched -/

/-- C7: a forced `/deposit/send-link` request that completes
successfully leaves the sent-deposit set (and hence its persisted
file, which mirrors it) unchanged: the force path bypasses the
suppression check without adding or resetting any sent-record, so
the expiry timing of an existing record is preserved. -/
theorem sendLink_force_preserves_store (bookingID : String)
    (force : JsonVal) (now : Nat) (sent : List String) (bk : Booking)
    (mail : Except String Unit)
    (hforce : isForcedOf force = true)
    (hok : (sendLinkV2 bookingID force now sent bk mail).success = true) :
    (sendLinkV2 bookingID force now sent bk mail).postSent = sent := by
  by_cases hemail : optStrFalsy bk.email = true <;>
    cases mail <;> simp_all [sendLinkV2, hforce]

/-- Witness for C7: forced resend of booking `"5"`; the record
`"5:100"` keeps its original timestamp. -/
theorem sendLink_force_preserves_store_witness :
    (sendLinkV2 "5" (.jbool true) 200 ["5:100"] emailBooking
        (.ok ())).postSent = ["5:100"] :=
  sendLink_force_preserves_store "5" (.jbool true) 200 ["5:100"]
    emailBooking (.ok ()) (by decide) (by decide)

/-! ### Claim C4: webhook handling is idempotent -/

theorem contains_iff_mem (s : List String) (x : String) :
    s.contains x = true ↔ x ∈ s := by
  simp [List.contains, List.elem_iff]

theorem contains_setAdd (s : List String) (x : String) :
    (setAdd s x).contains x = true :=
  (contains_iff_mem _ _).mpr ((mem_setAdd s x x).mpr (Or.inr rfl))

theorem replayAll_fixed (data : CallbackData)
    (hconf : data.notification_type = "reservation_confirmed") :
    ∀ (oracles : List (Booking × Except String String × Except String Unit))
      (st : CbState), st.processed.contains data.reservation = true →
      replayAll data oracles st = st := by
  intro oracles
  induction oracles with
  | nil => intro st _; rfl
  | cons o rest ih =>
    intro st h
    show replayAll data rest (planyoCallback data st o.1 o.2.1 o.2.2).state = st
    have hmem := (contains_iff_mem _ _).mp h
    have hskip : planyoCallback data st o.1 o.2.1 o.2.2 =
        { status := 200, body := "Already processed", state := st,
          questionnaireCalls := 0, sendLinkCalls := 0 } := by
      simp [planyoCallback, hconf, hmem]
    rw [hskip]
    exact ih st h

/-- C4: a `reservation_confirmed` callback whose bookingID is already
in the processed set is a no-op: HTTP 200, unchanged state (processed
set, form-status map, sent-deposit set), no questionnaire email, no
internal `/deposit/send-link` call; moreover a full handling (the
internal call resolving) leaves the bookingID in the processed set,
so replaying the callback any number of times afterwards, whatever
the lookups and outcomes, leaves the state of that first handling
untouched. -/
theorem callback_replay_noop (data : CallbackData) (st : CbState)
    (bk : Booking) (ftr : Except String String)
    (slo : Except String Unit)
    (hconf : data.notification_type = "reservation_confirmed") :
    (st.processed.contains data.reservation = true →
      planyoCallback data st bk ftr slo =
        { status := 200, body := "Already processed", state := st,
          questionnaireCalls := 0, sendLinkCalls := 0 }) ∧
    ((planyoCallback data st bk ftr (.ok ())).state.processed.contains
        data.reservation = true) ∧
    (∀ oracles, replayAll data oracles
        (planyoCallback data st bk ftr (.ok ())).state =
      (planyoCallback data st bk ftr (.ok ())).state) := by
  have hmark : (planyoCallback data st bk ftr (.ok ())).state.processed.contains
      data.reservation = true := by
    by_cases hin : data.reservation ∈ st.processed
    · simp [planyoCallback, hconf, hin, contains_iff_mem]
    · simp [planyoCallback, hconf, hin, contains_iff_mem, mem_setAdd]
  refine ⟨fun hin => by
    simp [planyoCallback, hconf, (contains_iff_mem _ _).mp hin],
    hmark, ?_⟩
  intro oracles
  exact replayAll_fixed data hconf oracles _ hmark

/-- Witness for C4: replaying a confirmed callback for the already
processed booking `"42"` answers 200 "Already processed" and changes
nothing. -/
theorem callback_replay_noop_witness :
    planyoCallback confirmedData42 processedState42 emailBooking
        (.ok "long") (.ok ()) =
      { status := 200, body := "Already processed",
        state := processedState42, questionnaireCalls := 0,
        sendLinkCalls := 0 } :=
  (callback_replay_noop confirmedData42 processedState42 emailBooking
    (.ok "long") (.ok ()) rfl).1 (by decide)

/-! ### Claim C9: the deposit status query -/

/-- C9 counterexample: the claim as stated fails.  A canceled Hold is
in a terminal state (the data model lists canceled among the terminal
states), yet the query reports `success: false` for a page whose only
Hold tagged `"123"` is canceled, because the code only reports
statuses `"succeeded"` and `"requires_capture"`. -/
theorem depositStatus_canceled_cex :
    (depositStatus "123" [canceledHold]).success = false ∧
      specTerminalOrHoldActive canceledHold.status = true ∧
      canceledHold.metaBookingID = some "123" := by decide

/-- C9 (amended): the status query scans the bounded page of Holds,
keeps those whose metadata bookingID equals the requested one, and
reports the amount, status and creation time of the first whose
status is `"succeeded"` (captured-terminal) or `"requires_capture"`
(hold-active); canceled or otherwise failed Holds are never reported,
and if no reportable Hold exists it answers `success: false`. -/
theorem depositStatus_first_reported (bookingID : String)
    (intents : List PaymentIntent) :
    depositStatus bookingID intents =
      match firstReportable bookingID intents with
      | some pi =>
        { success := true, amountMinor := some pi.amount,
          statusStr := some pi.status, created := some pi.created }
      | none =>
        { success := false, amountMinor := none, statusStr := none,
          created := none } := by
  induction intents with
  | nil => rfl
  | cons pi rest ih =>
    by_cases hm : (match pi.metaBookingID with
        | some b => b == bookingID
        | none => false) = true
    · by_cases hs : (pi.status == "succeeded" ||
          pi.status == "requires_capture") = true
      · simp [depositStatus, firstReportable, hm, hs]
      · simpa [depositStatus, firstReportable, hm, hs] using ih
    · simpa [depositStatus, firstReportable, hm] using ih

/-! ### Claim C1: the clock-drift retry of the signed request builder -/

/-- C1 counterexample: the claim as stated fails for the server.js
revision of `planyoCall`.  The first fetch (at local unix time 100)
gets a `response_code` 1 response whose message matches the drift
pattern and embeds the remote clock 1700000123, yet the retry is
issued with a fresh local timestamp (again 100), not with the
embedded 1700000123. -/
theorem srvPlanyoCall_fresh_retry_cex :
    (srvPlanyoCall driftOracle 100 100).2 = [100, 100] ∧
      (srvPlanyoCall driftOracle 100 100).2 ≠ [100, 1700000123] ∧
      (driftOracle 100).response_code = 1 ∧
      testInvalidTimestamp
        (jsOrStr (driftOracle 100).response_message "") = true ∧
      matchCurrentTimestamp
        (jsOrStr (driftOracle 100).response_message "") =
          some 1700000123 := by decide

/-- C1 (amended): when the first response is a `response_code` 1
error matching `/Invalid timestamp/i`, both revisions retry exactly
once and never a second time, whatever the retried response; the
part_001 revision retries with the timestamp `T` parsed out of the
error message (when `/Current timestamp is\s+(\d+)/i` captures),
while the server.js revision retries with a freshly generated local
timestamp and never parses `T`. -/
theorem planyoCall_drift_retry :
    (∀ (oracle : Nat → PResp) (now T : Nat) (j : PJson),
      (oracle now).json = some j →
      j.response_code = 1 →
      testInvalidTimestamp (jsOrStr j.response_message (oracle now).text) =
        true →
      matchCurrentTimestamp (jsOrStr j.response_message "") = some T →
      (planyoCall oracle now).timestamps = [now, T]) ∧
    (∀ (oracle : Nat → PJson) (now1 now2 : Nat),
      (oracle now1).response_code = 1 →
      testInvalidTimestamp (jsOrStr (oracle now1).response_message "") =
        true →
      (srvPlanyoCall oracle now1 now2).2 = [now1, now2]) := by
  constructor
  · intro oracle now T j hjson hcode hdrift hts
    simp [planyoCall, hjson, hcode, hdrift, hts]
  · intro oracle now1 now2 hcode hdrift
    simp [srvPlanyoCall, hcode, hdrift]

/-- Witness for C1 at the concrete drift behavior: part_001 retries
at the parsed remote clock 1700000123; server.js retries at the
fresh local clock 101. -/
theorem planyoCall_drift_retry_witness :
    (planyoCall driftRespOracle 100).timestamps = [100, 1700000123] ∧
      (srvPlanyoCall driftOracle 100 101).2 = [100, 101] :=
  ⟨planyoCall_drift_retry.1 driftRespOracle 100 1700000123
      (driftOracle 100) (by decide) (by decide) (by decide) (by decide),
    planyoCall_drift_retry.2 driftOracle 100 101 (by decide) (by decide)⟩

/-! ### Claim C5: send-link with no email on file -/

/-- C5 counterexample: the claim as stated fails for the part_001
revision.  A `/deposit/send-link` request whose booking lookup yields
a null email is answered through `res.json(...)`, i.e. HTTP 200 with
`success: false`, not HTTP 400. -/
theorem sendLink_noEmail_cex :
    (sendLinkV2 "77" .jmissing 0 [] noEmailBooking (.ok ())).status =
        200 ∧
      (sendLinkV2 "77" .jmissing 0 [] noEmailBooking (.ok ())).status ≠
        400 ∧
      (sendLinkV2 "77" .jmissing 0 [] noEmailBooking
          (.ok ())).success = false := by decide

/-- C5 (amended): a `/deposit/send-link` request whose booking lookup
yields a falsy email returns an error result, invokes `sendgrid.send`
zero times, and does not mark the booking as sent; the server.js
revision reports it as HTTP 400, while the part_001 revision reports
it as HTTP 200 with `success: false` and an error message. -/
theorem sendLink_noEmail_error :
    (∀ (bookingID : String) (force : JsonVal) (now : Nat)
        (sent : List String) (bk : Booking) (mail : Except String Unit),
      optStrFalsy bk.email = true →
      (!isForcedOf force && alreadySentRecently now bookingID sent) =
        false →
      sendLinkV2 bookingID force now sent bk mail =
        { status := 200, success := false, alreadySent := false,
          errorMsg := some "No customer email", sendgridCalls := 0,
          lookedUp := true, postSent := sent }) ∧
    (∀ (bk : Booking) (send1 send2 : Except String Unit),
      optStrFalsy bk.email = true →
      srvSendLink bk send1 send2 =
        { status := 400, success := false,
          errorMsg := some "No customer email found",
          sendgridCalls := 0 }) := by
  constructor
  · intro bookingID force now sent bk mail hemail hpass
    simp [sendLinkV2, hpass, hemail]
  · intro bk send1 send2 hemail
    simp [srvSendLink, hemail]

/-- Witness for C5 at a concrete request: booking `"77"`, sentinel
lookup result with null email, in both revisions. -/
theorem sendLink_noEmail_error_witness :
    sendLinkV2 "77" .jmissing 5 [] noEmailBooking (.ok ()) =
        { status := 200, success := false, alreadySent := false,
          errorMsg := some "No customer email", sendgridCalls := 0,
          lookedUp := true, postSent := [] } ∧
      srvSendLink noEmailBooking (.ok ()) (.ok ()) =
        { status := 400, success := false,
          errorMsg := some "No customer email found",
          sendgridCalls := 0 } :=
  ⟨sendLink_noEmail_error.1 "77" .jmissing 5 [] noEmailBooking (.ok ())
      (by decide) (by decide),
    sendLink_noEmail_error.2 noEmailBooking (.ok ()) (.ok ())
      (by decide)⟩

/-! ### Claim C8: handler-level exception reporting -/

/-- C8 counterexample: the claim as stated fails for the part_001
`/deposit/send-link` handler.  An exception (`Promise.all`
rejection with message `"boom"`) is caught, but answered through
`res.json({ success: false, error: err.message })`, i.e. HTTP 200
carrying the message — not HTTP 500. -/
theorem sendLink_error_status_cex :
    (sendLinkV2 "77" .jmissing 0 [] emailBooking
          (.error "boom")).status = 200 ∧
      (sendLinkV2 "77" .jmissing 0 [] emailBooking
          (.error "boom")).status ≠ 500 ∧
      (sendLinkV2 "77" .jmissing 0 [] emailBooking
          (.error "boom")).errorMsg = some "boom" := by decide

/-- C8 (amended): exceptions raised inside the handlers are caught at
the handler level and turned into a response (the embedded handlers
are total, so the process never crashes), but not uniformly as
HTTP 500: `/terminal/cancel` reports any cancel-call or email-send
exception as 500 with the exception message, the server.js
`/deposit/send-link` reports a send exception as 500 with the
message (the admin send never attempted when the customer send
threw), while the part_001 `/deposit/send-link` reports a caught
exception as HTTP 200 with `success: false` and the message. -/
theorem handler_exception_reporting :
    (∀ (bk : Booking) (mail : Except String Unit) (msg : String),
      cancelHandler (.error msg) bk mail =
        { status := 500, errorMsg := some msg, sendgridCalls := 0 }) ∧
    (∀ (c : CancelObj) (bk : Booking) (msg : String),
      optStrFalsy c.metaBookingID = false →
      optStrFalsy bk.email = false →
      cancelHandler (.ok c) bk (.error msg) =
        { status := 500, errorMsg := some msg, sendgridCalls := 2 }) ∧
    (∀ (bk : Booking) (send2 : Except String Unit) (msg : String),
      optStrFalsy bk.email = false →
      srvSendLink bk (.error msg) send2 =
        { status := 500, success := false, errorMsg := some msg,
          sendgridCalls := 1 }) ∧
    (∀ (bookingID : String) (force : JsonVal) (now : Nat)
        (sent : List String) (bk : Booking) (msg : String),
      (!isForcedOf force && alreadySentRecently now bookingID sent) =
        false →
      optStrFalsy bk.email = false →
      sendLinkV2 bookingID force now sent bk (.error msg) =
        { status := 200, success := false, alreadySent := false,
          errorMsg := some msg, sendgridCalls := 2, lookedUp := true,
          postSent := sent }) := by
  refine ⟨fun bk mail msg => rfl, ?_, ?_, ?_⟩
  · intro c bk msg hbid hemail
    simp [cancelHandler, hbid, hemail]
  · intro bk send2 msg hemail
    simp [srvSendLink, hemail]
  · intro bookingID force now sent bk msg hpass hemail
    simp [sendLinkV2, hpass, hemail]

/-- Witness for C8 at concrete failing calls in each handler. -/
theorem handler_exception_reporting_witness :
    cancelHandler (.error "No such payment_intent") emailBooking
        (.ok ()) =
      { status := 500, errorMsg := some "No such payment_intent",
        sendgridCalls := 0 } ∧
      srvSendLink emailBooking (.error "sendgrid down") (.ok ()) =
        { status := 500, success := false,
          errorMsg := some "sendgrid down", sendgridCalls := 1 } ∧
      sendLinkV2 "77" .jmissing 0 [] emailBooking (.error "boom") =
        { status := 200, success := false, alreadySent := false,
          errorMsg := some "boom", sendgridCalls := 2,
          lookedUp := true, postSent := [] } :=
  ⟨handler_exception_reporting.1 emailBooking (.ok ())
      "No such payment_intent",
    handler_exception_reporting.2.2.1 emailBooking (.ok ())
      "sendgrid down" (by decide),
    handler_exception_reporting.2.2.2 "77" .jmissing 0 [] emailBooking
      "boom" (by decide) (by decide)⟩

end RentalBackend
